import Mathlib

/-!
A shallow embedding of the uplite monitoring and history-aggregation
engine, translated from:

  - src/uplite/models/connection_history.py  (history store and statistics)
  - src/uplite/utils/connection_checker.py   (protocol checkers)
  - src/uplite/models/connection.py          (the Connection record)

Modelling conventions: timestamps are integer seconds (UTC); a calendar
date is the floor division of a timestamp by 86400, matching what the
date method of a datetime yields on UTC datetimes.  Latencies and
percentages are rationals.  The history store is a list of records in
ascending timestamp order (ties by insertion order), so an
order-by-timestamp-descending query is the reverse of the list.
Python float rounding is modelled as exact rational rounding
half-to-even, the rounding mode of the builtin round.  Python
truthiness tests on optional strings, optional numbers and ports are
modelled by explicit helper predicates.
-/

namespace Uplite

/-- The status column: one of the strings "up", "down", "unknown". -/
inductive Status where
  | up
  | down
  | unknown
deriving DecidableEq, Repr

/-- str.title() applied to a status string, as used for incident labels. -/
def statusTitle : Status → String
  | .up => "Up"
  | .down => "Down"
  | .unknown => "Unknown"

/-- entry.status == "up". -/
def isUp : Status → Bool
  | .up => true
  | _ => false

/-- entry.status == "down". -/
def isDown : Status → Bool
  | .down => true
  | _ => false

/-- entry.status == "unknown". -/
def isUnknown : Status → Bool
  | .unknown => true
  | _ => false

/-- entry.status in ["down", "unknown"]  (connection_history.py line 148). -/
def isIncidentStatus : Status → Bool
  | .down => true
  | .unknown => true
  | .up => false

/-- One ConnectionHistory row: connection id, timestamp, status, optional
latency in milliseconds, optional error message. -/
structure Record where
  connection_id : ℕ
  timestamp : ℤ
  status : Status
  response_time : Option ℚ
  error_message : Option String
deriving DecidableEq, Repr

/-- Python truthiness of an optional string: None and the empty string
are falsy. -/
def pyStrTruthy : Option String → Bool
  | none => false
  | some s => !(s == "")

/-- Python truthiness of an optional number: None and 0 are falsy. -/
def pyNumTruthy : Option ℚ → Bool
  | none => false
  | some x => decide (x ≠ 0)

/-- Round a rational to an integer, ties to even: the behaviour of the
Python builtin round on exact values. -/
def roundHalfEven (y : ℚ) : ℤ :=
  if y - ⌊y⌋ < 1/2 then ⌊y⌋
  else if (1:ℚ)/2 < y - ⌊y⌋ then ⌊y⌋ + 1
  else if ⌊y⌋ % 2 = 0 then ⌊y⌋ else ⌊y⌋ + 1

/-- round(x, nd) of Python, on exact rationals. -/
def pyRound (nd : ℕ) (x : ℚ) : ℚ :=
  (roundHalfEven (x * 10 ^ nd) : ℚ) / 10 ^ nd

/-- timestamp.date(), encoded as the day number: floor division of the
timestamp by the 86400 seconds of a day. -/
def dateOf (ts : ℤ) : ℤ := ts.fdiv 86400

/-!  History store: add_check_result and cleanup_old_data
(connection_history.py lines 32-59).  add_check_result adds the new row
to the session and then runs the cleanup; the timestamp column default
assigns the new row its timestamp from a second clock reading taken when
the row is flushed, which happens inside the cleanup query, after the
cutoff has been computed.  The two clock readings are therefore separate
parameters tCut and tEntry here. -/

/-- cleanup_old_data: delete every record strictly older than
now - retention_days days; when connection_id is truthy (nonzero) only
records of that connection are deleted, otherwise all connections are
swept (the `if connection_id:` truthiness test on line 54). -/
def cleanup_old_data (connection_id : ℕ) (retention_days : ℕ) (now : ℤ)
    (store : List Record) : List Record :=
  store.filter fun r =>
    !(decide (r.timestamp < now - (retention_days : ℤ) * 86400) &&
      (decide (connection_id = 0) || decide (r.connection_id = connection_id)))

/-- add_check_result: append the new record (timestamp tEntry, from the
column default) and clean up data older than 7 days before tCut. -/
def add_check_result (connection_id : ℕ) (status : Status)
    (response_time : Option ℚ) (error_message : Option String)
    (tCut tEntry : ℤ) (store : List Record) : List Record :=
  let entry : Record :=
    { connection_id := connection_id, timestamp := tEntry, status := status
      response_time := response_time, error_message := error_message }
  cleanup_old_data connection_id 7 tCut (store ++ [entry])

/-!  Median query (connection_history.py lines 61-74).  The sort inside
statistics.median is modelled by insertion sort; statistics.median of an
even-count list is the mean of the two central values of the sorted
data. -/

/-- Insert into a sorted list, keeping order. -/
def insertSorted (x : ℚ) : List ℚ → List ℚ
  | [] => [x]
  | y :: ys => if x ≤ y then x :: y :: ys else y :: insertSorted x ys

/-- Ascending sort of a list of rationals. -/
def sortRats (l : List ℚ) : List ℚ := l.foldr insertSorted []

/-- statistics.median: sort; odd count takes the middle element, even
count averages the two central elements. -/
def pyMedian (l : List ℚ) : ℚ :=
  let s := sortRats l
  let n := s.length
  if n % 2 = 1 then s.getD (n / 2) 0
  else (s.getD (n / 2 - 1) 0 + s.getD (n / 2) 0) / 2

/-- The filter of get_median_response_time: same connection, non-null
response time, status "up". -/
def medianQualifies (connection_id : ℕ) (r : Record) : Bool :=
  decide (r.connection_id = connection_id) && r.response_time.isSome && isUp r.status

/-- get_median_response_time: most recent `periods` qualifying records
(descending order then limit), median of their latencies, None if no
record qualifies. -/
def get_median_response_time (connection_id : ℕ) (periods : ℕ)
    (store : List Record) : Option ℚ :=
  let recent_entries := ((store.filter (medianQualifies connection_id)).reverse).take periods
  if recent_entries.isEmpty then none
  else some (pyMedian (recent_entries.filterMap (·.response_time)))

/-- Modelled from the claim wording, for comparison with the code: the
latencies of the most recent at-most-n records with status UP and
non-null latency. -/
def recentUpLatencies (connection_id : ℕ) (periods : ℕ)
    (store : List Record) : List ℚ :=
  (((store.filter (medianQualifies connection_id)).reverse).take periods).filterMap
    (·.response_time)

/-- Modelled from the claim wording: the statistics-textbook median,
written uniformly as the mean of the elements at sorted positions
(n-1)/2 and n/2, which is the middle element for odd n and the mean of
the two central elements for even n; None for an empty list. -/
def textbookMedian (l : List ℚ) : Option ℚ :=
  if l.isEmpty then none
  else
    let s := sortRats l
    let n := s.length
    some ((s.getD ((n - 1) / 2) 0 + s.getD (n / 2) 0) / 2)

/-!  Incident derivation (connection_history.py lines 138-200).  The two
strftime renderings (start_time_formatted, end_time_formatted) are pure
reformattings of the start and end times and are not modelled.  An
ongoing incident receives end_time = now and the key ongoing = True. -/

/-- The partially built incident carried through the loop. -/
structure OpenIncident where
  start_time : ℤ
  error_message : Option String
  status_types : List Status
deriving DecidableEq, Repr

/-- A finished incident as appended to the incidents list. -/
structure Incident where
  start_time : ℤ
  end_time : ℤ
  duration_minutes : ℚ
  error_message : Option String
  status_types : List Status
  status_desc : String
  ongoing : Bool
deriving DecidableEq, Repr

/-- The readable status description: one kind gives its title, several
kinds give a Mixed label. -/
def statusDesc (types : List Status) : String :=
  if types.length = 1 then statusTitle (types.headD Status.down)
  else "Mixed (" ++ String.intercalate ", " (types.map statusTitle) ++ ")"

/-- Close an open incident at endT, computing the rounded duration in
minutes and the status description. -/
def closeIncident (oi : OpenIncident) (endT : ℤ) (ongoing : Bool) : Incident :=
  { start_time := oi.start_time
    end_time := endT
    duration_minutes := pyRound 1 (((endT - oi.start_time : ℤ) : ℚ) / 60)
    error_message := oi.error_message
    status_types := oi.status_types
    status_desc := statusDesc oi.status_types
    ongoing := ongoing }

/-- One iteration of the _calculate_incidents loop. -/
def stepIncidents (st : List Incident × Option OpenIncident) (e : Record) :
    List Incident × Option OpenIncident :=
  match st with
  | (acc, none) =>
    if isIncidentStatus e.status then
      (acc, some { start_time := e.timestamp, error_message := e.error_message
                   status_types := [e.status] })
    else (acc, none)
  | (acc, some oi) =>
    if isIncidentStatus e.status then
      (acc, some
        { start_time := oi.start_time
          error_message :=
            if pyStrTruthy e.error_message && !(pyStrTruthy oi.error_message) then
              e.error_message
            else oi.error_message
          status_types :=
            if e.status ∈ oi.status_types then oi.status_types
            else oi.status_types ++ [e.status] })
    else (acc ++ [closeIncident oi e.timestamp false], none)

/-- _calculate_incidents over an ascending entries list; a still-open
incident at the end is closed at `now` and flagged ongoing. -/
def calcIncidents (entries : List Record) (now : ℤ) : List Incident :=
  match entries.foldl stepIncidents ([], none) with
  | (acc, none) => acc
  | (acc, some oi) => acc ++ [closeIncident oi now true]

/-- The number of maximal blocks of consecutive non-UP records; the
boolean says whether the previous record was non-UP. -/
def incidentStarts : List Record → Bool → ℕ
  | [], _ => 0
  | e :: rest, inRun =>
    if isIncidentStatus e.status then
      (if inRun then 0 else 1) + incidentStarts rest true
    else incidentStarts rest false

/-- Whether the sequence ends in a non-UP record (so that the derivation
leaves an ongoing incident). -/
def endsInIncident (es : List Record) : Bool :=
  match es.getLast? with
  | none => false
  | some e => isIncidentStatus e.status

/-- Erase the fields of an ongoing incident that are computed from the
evaluation time (its end time and duration); closed incidents are kept
as they are. -/
def eraseVolatile (i : Incident) : Incident :=
  if i.ongoing then { i with end_time := 0, duration_minutes := 0 } else i

/-- The length of the final incidents list, given the loop state: an
open incident contributes one more list entry when closed. -/
def finishLen (st : List Incident × Option OpenIncident) : ℕ :=
  match st with
  | (l, none) => l.length
  | (l, some _) => l.length + 1

/-!  Daily statistics (connection_history.py lines 204-256).  The
date_formatted strftime rendering of the date is a pure reformatting and
is not modelled.  The fallback of _count_incidents_for_date for a
missing end_time is dead code for incidents produced by
_calculate_incidents, which always sets end_time. -/

/-- One daily_stats entry. -/
structure DailyStat where
  date : ℤ
  total_checks : ℕ
  uptime_percentage : ℚ
  avg_response_time : Option ℚ
  incidents_count : ℕ
deriving DecidableEq, Repr

/-- _count_incidents_for_date: incidents whose [start date, end date]
span covers the target date. -/
def countIncidentsForDate (d : ℤ) (incidents : List Incident) : ℕ :=
  incidents.countP fun inc =>
    decide (dateOf inc.start_time ≤ d) && decide (d ≤ dateOf inc.end_time)

/-- The first calendar day of the daily rollup:
(now - (days-1) days).date(). -/
def dailyStart (now : ℤ) (days : ℕ) : ℤ :=
  dateOf (now - ((days - 1 : ℕ) : ℤ) * 86400)

/-- The daily_stats entry built for one calendar day d: per-status
counts, uptime percent rounded to 1 decimal, average latency of UP
checks with truthy latency rounded to 2 decimals (None when no such
check or when the average is 0, by the Python truthiness test), and the
incident count for the day. -/
def dailyStatFor (entries : List Record) (incidents : List Incident) (d : ℤ) :
    DailyStat :=
  let ups := entries.countP fun e => decide (dateOf e.timestamp = d) && isUp e.status
  let downs := entries.countP fun e => decide (dateOf e.timestamp = d) && isDown e.status
  let unknowns := entries.countP fun e =>
    decide (dateOf e.timestamp = d) && isUnknown e.status
  let response_times := (entries.filter fun e =>
    decide (dateOf e.timestamp = d) && pyNumTruthy e.response_time && isUp e.status).filterMap
      (·.response_time)
  let total_checks := ups + downs + unknowns
  let uptime : ℚ :=
    if 0 < total_checks then ((ups : ℚ) / (total_checks : ℚ)) * 100 else 0
  let avg_response : Option ℚ :=
    if response_times.isEmpty then none
    else some (response_times.sum / (response_times.length : ℚ))
  { date := d
    total_checks := total_checks
    uptime_percentage := pyRound 1 uptime
    avg_response_time :=
      match avg_response with
      | none => none
      | some a => if a = 0 then none else some (pyRound 2 a)
    incidents_count := countIncidentsForDate d incidents }

/-- _calculate_daily_stats: one entry per day of the window, oldest
first. -/
def calcDailyStats (entries : List Record) (days : ℕ) (incidents : List Incident)
    (now : ℤ) : List DailyStat :=
  (List.range days).map fun i : ℕ =>
    dailyStatFor entries incidents (dailyStart now days + (i : ℤ))

/-- Modelled from the claim wording: the number of checks with status UP
on calendar day d. -/
def upCountOn (entries : List Record) (d : ℤ) : ℕ :=
  (entries.filter fun e => decide (dateOf e.timestamp = d) && isUp e.status).length

/-- Modelled from the claim wording: the total number of checks on
calendar day d, every status counted. -/
def checksOn (entries : List Record) (d : ℤ) : ℕ :=
  (entries.filter fun e => decide (dateOf e.timestamp = d)).length

/-!  get_connection_statistics (connection_history.py lines 91-136).
The empty-window branch of the source returns a dict without the
min_response_time and max_response_time keys; a missing key reads as
null through dict.get and through the templates, so both fields are
modelled as None there. -/

/-- min over a nonempty list (the guard in the source keeps the empty
case from being used). -/
def listMin : List ℚ → ℚ
  | [] => 0
  | x :: xs => xs.foldl min x

/-- max over a nonempty list. -/
def listMax : List ℚ → ℚ
  | [] => 0
  | x :: xs => xs.foldl max x

/-- The statistics report. -/
structure Stats where
  total_checks : ℕ
  uptime_percentage : ℚ
  avg_response_time : Option ℚ
  min_response_time : Option ℚ
  max_response_time : Option ℚ
  incidents : List Incident
  daily_stats : List DailyStat
  period_start : ℤ
  period_end : ℤ
deriving DecidableEq, Repr

/-- The ascending range query feeding the statistics: records of the
connection with timestamp at or after the cutoff. -/
def windowEntries (connection_id : ℕ) (days : ℕ) (now : ℤ)
    (store : List Record) : List Record :=
  store.filter fun r =>
    decide (r.connection_id = connection_id) &&
    decide (now - (days : ℤ) * 86400 ≤ r.timestamp)

/-- get_connection_statistics. -/
def get_connection_statistics (connection_id : ℕ) (days : ℕ) (now : ℤ)
    (store : List Record) : Stats :=
  let cutoff_time := now - (days : ℤ) * 86400
  let entries := windowEntries connection_id days now store
  if entries.isEmpty then
    { total_checks := 0, uptime_percentage := 0, avg_response_time := none
      min_response_time := none, max_response_time := none
      incidents := [], daily_stats := []
      period_start := cutoff_time, period_end := now }
  else
    let total_checks := entries.length
    let up_checks := entries.countP fun e => isUp e.status
    let uptime_percentage : ℚ :=
      if 0 < total_checks then ((up_checks : ℚ) / (total_checks : ℚ)) * 100 else 0
    let valid_response_times := (entries.filter fun e =>
      e.response_time.isSome && isUp e.status).filterMap (·.response_time)
    let avg_response_time : Option ℚ :=
      if valid_response_times.isEmpty then none
      else some (valid_response_times.sum / (valid_response_times.length : ℚ))
    let incidents := calcIncidents entries now
    let daily_stats := calcDailyStats entries days incidents now
    { total_checks := total_checks
      uptime_percentage := pyRound 2 uptime_percentage
      avg_response_time :=
        match avg_response_time with
        | none => none
        | some a => if a = 0 then none else some (pyRound 2 a)
      min_response_time :=
        if valid_response_times.isEmpty then none
        else some (pyRound 2 (listMin valid_response_times))
      max_response_time :=
        if valid_response_times.isEmpty then none
        else some (pyRound 2 (listMax valid_response_times))
      incidents := incidents
      daily_stats := daily_stats
      period_start := cutoff_time, period_end := now }

/-!  The connection checker (connection_checker.py).  Network and
subprocess behaviour is abstracted into environment values describing
what the probe observed: a received response, a timeout, a transport
error, or an exception escaping the protocol handlers.  The URL
normalisation of _check_http (lines 50-71) only rewrites the request
URL and does not influence the claims modelled here; an exception it
could raise is covered by the raised environment case. -/

/-- The outcome of one check: (status, response_time_ms, error_message). -/
structure CheckResult where
  status : Status
  response_time : Option ℚ
  error_message : Option String
deriving DecidableEq, Repr

/-- The Connection row fields the checker reads or writes. -/
structure Conn where
  name : String
  description : Option String
  connection_type : String
  target : String
  port : Option ℕ
  timeout : ℕ
  check_interval : ℕ
  is_active : Bool
deriving DecidableEq, Repr

/-- What an HTTP probe observed. -/
inductive HttpEnv where
  | response (status_code : ℕ) (reason : String) (start_time end_time : ℚ)
  | timedOut
  | connError
  | requestExc (msg : String)
  | raised (msg : String)
deriving DecidableEq, Repr

/-- What a ping probe observed: a finished subprocess with its exit
code, the round-trip time parsed from stdout when present, the stripped
stderr and the wall-clock times, or a timeout, or an exception.  -/
inductive PingEnv where
  | ran (returncode : ℤ) (stdoutTime : Option ℚ) (stderrStripped : String)
      (start_time end_time : ℚ)
  | timedOut
  | raised (msg : String)
deriving DecidableEq, Repr

/-- What a TCP connect observed: the connect_ex result code with the
wall-clock times, a socket timeout, a name resolution failure, or an
exception. -/
inductive TcpEnv where
  | connected (result : ℤ) (start_time end_time : ℚ)
  | timedOut
  | gaiError (msg : String)
  | raised (msg : String)
deriving DecidableEq, Repr

/-- The combined probe environment for one check. -/
structure Env where
  http : HttpEnv
  ping : PingEnv
  tcp : TcpEnv
deriving DecidableEq, Repr

/-- The status mapping of _check_http once a response was received
(lines 92-105): status below 400 or in [401, 403] is UP, 401 and 403
with explanatory notes, anything else DOWN with code and reason;
latency is the wall-clock duration in milliseconds. -/
def check_http_response (status_code : ℕ) (reason : String)
    (start_time end_time : ℚ) : CheckResult :=
  let response_time := (end_time - start_time) * 1000
  if status_code < 400 ∨ status_code = 401 ∨ status_code = 403 then
    if status_code = 401 then
      { status := .up, response_time := some response_time
        error_message := some "Service up (authentication required)" }
    else if status_code = 403 then
      { status := .up, response_time := some response_time
        error_message := some "Service up (access forbidden but responsive)" }
    else
      { status := .up, response_time := some response_time, error_message := none }
  else
    { status := .down, response_time := some response_time
      error_message := some ("HTTP " ++ toString status_code ++ ": " ++ reason) }

/-- _check_http: responses are mapped by check_http_response; the
handlers catch the requests exceptions; any other exception escapes to
the caller (modelled by the error case). -/
def check_http (env : HttpEnv) : Except String CheckResult :=
  match env with
  | .response code reason s e => .ok (check_http_response code reason s e)
  | .timedOut => .ok { status := .down, response_time := none
                       error_message := some "Connection timeout" }
  | .connError => .ok { status := .down, response_time := none
                        error_message := some "Connection refused" }
  | .requestExc m => .ok { status := .down, response_time := none
                           error_message := some m }
  | .raised m => .error m

/-- _check_ping: exit code 0 is UP, preferring the parsed round-trip
time over wall clock; nonzero exit is DOWN with stderr or a generic
message; every exception is caught inside. -/
def check_ping (env : PingEnv) : CheckResult :=
  match env with
  | .ran rc stdoutTime stderr s e =>
    if rc = 0 then
      { status := .up
        response_time := some (match stdoutTime with
          | some t => t
          | none => (e - s) * 1000)
        error_message := none }
    else
      { status := .down, response_time := none
        error_message := some (if stderr == "" then "Ping failed" else stderr) }
  | .timedOut => { status := .down, response_time := none
                   error_message := some "Ping timeout" }
  | .raised m => { status := .down, response_time := none, error_message := some m }

/-- connection.port or 80: the port passed to connect_ex (line 157);
None and 0 are falsy. -/
def tcp_connect_port (c : Conn) : ℕ :=
  match c.port with
  | none => 80
  | some p => if p = 0 then 80 else p

/-- _check_tcp: connect_ex result 0 is UP, otherwise DOWN with the
error code; timeout and name resolution failure give DOWN; every
exception is caught inside. -/
def check_tcp (_c : Conn) (env : TcpEnv) : CheckResult :=
  match env with
  | .connected res s e =>
    let response_time := (e - s) * 1000
    if res = 0 then
      { status := .up, response_time := some response_time, error_message := none }
    else
      { status := .down, response_time := some response_time
        error_message := some ("Connection failed (error code: " ++ toString res ++ ")") }
  | .timedOut => { status := .down, response_time := none
                   error_message := some "Connection timeout" }
  | .gaiError m => { status := .down, response_time := none
                     error_message := some ("DNS resolution failed: " ++ m) }
  | .raised m => { status := .down, response_time := none, error_message := some m }

/-- str.lower() over the characters of a string. -/
def lowerChars (s : String) : List Char := s.data.map Char.toLower

/-- Whether the pattern occurs at the head of the text. -/
def leadMatch : List Char → List Char → Bool
  | [], _ => true
  | _ :: _, [] => false
  | a :: as, b :: bs => a == b && leadMatch as bs

/-- Python substring containment: pat in text. -/
def hasSub : List Char → List Char → Bool
  | pat, [] => leadMatch pat []
  | pat, c :: rest => leadMatch pat (c :: rest) || hasSub pat rest

/-- The default database port inferred from the lowered target string
(lines 183-194): mysql 3306, postgres 5432, redis 6379, mongodb 27017,
anything else 3306. -/
def default_db_port (target : String) : ℕ :=
  if hasSub "mysql".data (lowerChars target) then 3306
  else if hasSub "postgres".data (lowerChars target) then 5432
  else if hasSub "redis".data (lowerChars target) then 6379
  else if hasSub "mongodb".data (lowerChars target) then 27017
  else 3306

/-- Python truthiness of the port column: None and 0 are falsy. -/
def portTruthy : Option ℕ → Bool
  | none => false
  | some p => decide (p ≠ 0)

/-- The port-defaulting mutation of _check_database (lines 183-194):
with a falsy port, the inferred default port is written into the
connection record. -/
def db_conn (c : Conn) : Conn :=
  if portTruthy c.port then c
  else { c with port := some (default_db_port c.target) }

/-- _check_database: default the port when it is falsy, then run the
TCP check on the (possibly mutated) connection.  The surrounding
try/except cannot fire because the body and check_tcp return
normally. -/
def check_database (c : Conn) (env : TcpEnv) : Conn × CheckResult :=
  (db_conn c, check_tcp (db_conn c) env)

/-- check_connection: dispatch on the connection_type string; an
exception escaping a protocol handler is caught and becomes DOWN with
its message; an unknown type becomes UNKNOWN naming the type.  The
returned Conn is the record after the check (only the database path
mutates it). -/
def check_connection (c : Conn) (env : Env) : Conn × CheckResult :=
  if c.connection_type = "http" then
    (c, match check_http env.http with
        | .ok r => r
        | .error msg => { status := .down, response_time := none
                          error_message := some msg })
  else if c.connection_type = "ping" then (c, check_ping env.ping)
  else if c.connection_type = "tcp" then (c, check_tcp c env.tcp)
  else if c.connection_type = "database" then check_database c env.tcp
  else
    (c, { status := .unknown, response_time := none
          error_message := some ("Unknown connection type: " ++ c.connection_type) })

/-- Modelled from the claim wording: a check outcome is well formed when
it is UP, or it is DOWN or UNKNOWN and carries an error message. -/
def resultWellFormed (r : CheckResult) : Prop :=
  r.status = Status.up ∨
    ((r.status = Status.down ∨ r.status = Status.unknown) ∧ r.error_message ≠ none)

/-- Claim C2: for an HTTP check that receives a response, status below
400 is UP with no error, 401 is UP noting authentication, 403 is UP
noting the forbidden but responsive service, any other status at or
above 400 is DOWN with the code and reason, and in the UP cases the
latency is the measured request duration, which is nonnegative. -/
theorem http_status_mapping (code : ℕ) (reason : String) (s e : ℚ) (h : s ≤ e) :
    (code < 400 → check_http_response code reason s e =
      { status := .up, response_time := some ((e - s) * 1000), error_message := none }) ∧
    (code = 401 → check_http_response code reason s e =
      { status := .up, response_time := some ((e - s) * 1000)
        error_message := some "Service up (authentication required)" }) ∧
    (code = 403 → check_http_response code reason s e =
      { status := .up, response_time := some ((e - s) * 1000)
        error_message := some "Service up (access forbidden but responsive)" }) ∧
    (400 ≤ code → code ≠ 401 → code ≠ 403 → check_http_response code reason s e =
      { status := .down, response_time := some ((e - s) * 1000)
        error_message := some ("HTTP " ++ toString code ++ ": " ++ reason) }) ∧
    0 ≤ (e - s) * 1000 := by
  refine ⟨?_, ?_, ?_, ?_, ?_⟩
  · intro hc
    have h1 : code ≠ 401 := by omega
    have h2 : code ≠ 403 := by omega
    unfold check_http_response
    rw [if_pos (Or.inl hc), if_neg h1, if_neg h2]
  · intro hc; subst hc; rfl
  · intro hc; subst hc; rfl
  · intro h1 h2 h3
    unfold check_http_response
    rw [if_neg]
    push_neg
    exact ⟨by omega, h2, h3⟩
  · have h0 : (0:ℚ) ≤ e - s := by linarith
    exact mul_nonneg h0 (by norm_num)

/-- Witness for http_status_mapping at status code 401. -/
theorem http_status_mapping_witness :
    check_http_response 401 "Unauthorized" 0 1 =
      { status := .up, response_time := some ((1 - 0) * 1000)
        error_message := some "Service up (authentication required)" } ∧
    (0:ℚ) ≤ (1 - 0) * 1000 :=
  ⟨(http_status_mapping 401 "Unauthorized" 0 1 (by norm_num)).2.1 rfl,
   (http_status_mapping 401 "Unauthorized" 0 1 (by norm_num)).2.2.2.2⟩

/-- Claim C3: after add_check_result, the appended record is present,
and no record of that connection older than the 7-day retention cutoff
remains; the hypothesis allows any clock skew up to the retention
window between the cutoff reading and the row-default timestamp
reading. -/
theorem append_retention (connection_id : ℕ) (status : Status)
    (response_time : Option ℚ) (error_message : Option String)
    (tCut tEntry : ℤ) (store : List Record)
    (h : tCut - 7 * 86400 ≤ tEntry) :
    ({ connection_id := connection_id, timestamp := tEntry, status := status
       response_time := response_time, error_message := error_message } : Record) ∈
      add_check_result connection_id status response_time error_message tCut tEntry store ∧
    ∀ r ∈ add_check_result connection_id status response_time error_message tCut tEntry store,
      r.connection_id = connection_id → tCut - 7 * 86400 ≤ r.timestamp := by
  constructor
  · unfold add_check_result cleanup_old_data
    rw [List.mem_filter]
    refine ⟨List.mem_append_right _ (List.mem_singleton.mpr rfl), ?_⟩
    simp only [Bool.not_eq_true', Bool.and_eq_false_iff, decide_eq_false_iff_not]
    left
    push_cast
    omega
  · intro r hr hcid
    unfold add_check_result cleanup_old_data at hr
    rw [List.mem_filter] at hr
    have hp := hr.2
    simp only [Bool.not_eq_true', Bool.and_eq_false_iff, decide_eq_false_iff_not,
      Bool.or_eq_false_iff] at hp
    rcases hp with hts | ⟨_, hne⟩
    · push_cast at hts; omega
    · exact absurd hcid hne

/-- Witness for append_retention on a concrete store. -/
theorem append_retention_witness :
    ({ connection_id := 1, timestamp := 1000000, status := .up
       response_time := some 100, error_message := none } : Record) ∈
      add_check_result 1 .up (some 100) none 1000000 1000000 [] ∧
    ∀ r ∈ add_check_result 1 .up (some 100) none 1000000 1000000 [],
      r.connection_id = 1 → 1000000 - 7 * 86400 ≤ r.timestamp :=
  append_retention 1 .up (some 100) none 1000000 1000000 [] (by norm_num)

/-- Claim C7: a statistics window with no records yields the zeroed
report instead of failing: 0 checks, 0 percent uptime, no average,
minimum or maximum latency, and empty incident and daily lists. -/
theorem stats_empty_window (connection_id days : ℕ) (now : ℤ) (store : List Record)
    (h : windowEntries connection_id days now store = []) :
    get_connection_statistics connection_id days now store =
      { total_checks := 0, uptime_percentage := 0, avg_response_time := none
        min_response_time := none, max_response_time := none, incidents := []
        daily_stats := [], period_start := now - (days : ℤ) * 86400
        period_end := now } := by
  unfold get_connection_statistics
  rw [h]
  rfl

/-- Witness for stats_empty_window on the empty store. -/
theorem stats_empty_window_witness :
    get_connection_statistics 1 7 0 [] =
      { total_checks := 0, uptime_percentage := 0, avg_response_time := none
        min_response_time := none, max_response_time := none, incidents := []
        daily_stats := [], period_start := 0 - (7 : ℤ) * 86400
        period_end := 0 } := by
  have h := stats_empty_window 1 7 0 [] rfl
  rw [h]
  norm_num [Stats.mk.injEq]

/-- Every HTTP response mapping yields a well formed outcome. -/
theorem wf_http_response (code : ℕ) (reason : String) (s e : ℚ) :
    resultWellFormed (check_http_response code reason s e) := by
  unfold resultWellFormed check_http_response
  split_ifs <;> simp

/-- Every ping outcome is well formed. -/
theorem wf_ping (envp : PingEnv) : resultWellFormed (check_ping envp) := by
  unfold resultWellFormed check_ping
  cases envp with
  | ran rc t st s e => by_cases h : rc = 0 <;> simp [h]
  | timedOut => simp
  | raised m => simp

/-- Every TCP outcome is well formed. -/
theorem wf_tcp (c : Conn) (envt : TcpEnv) : resultWellFormed (check_tcp c envt) := by
  unfold resultWellFormed check_tcp
  cases envt with
  | connected res s e => by_cases h : res = 0 <;> simp [h]
  | timedOut => simp
  | gaiError m => simp
  | raised m => simp

/-- Claim C8: the check of any target, in any probe environment,
returns a result that is UP or carries a DOWN or UNKNOWN status with a
non-null error message (the dispatcher is a total function: every
exception from a handler is converted into a DOWN result); an
unrecognized connection type yields UNKNOWN with an error naming the
type. -/
theorem checker_never_raises (c : Conn) (env : Env) :
    resultWellFormed (check_connection c env).2 ∧
    (c.connection_type ∉ (["http", "ping", "tcp", "database"] : List String) →
      (check_connection c env).2.status = Status.unknown ∧
      (check_connection c env).2.error_message =
        some ("Unknown connection type: " ++ c.connection_type)) := by
  by_cases h1 : c.connection_type = "http"
  · refine ⟨?_, fun hmem => absurd (by rw [h1]; simp) hmem⟩
    unfold check_connection
    rw [if_pos h1]
    cases henv : env.http with
    | response code reason s e => exact wf_http_response code reason s e
    | timedOut => simp [check_http, resultWellFormed]
    | connError => simp [check_http, resultWellFormed]
    | requestExc m => simp [check_http, resultWellFormed]
    | raised m => simp [check_http, resultWellFormed]
  · by_cases h2 : c.connection_type = "ping"
    · refine ⟨?_, fun hmem => absurd (by rw [h2]; simp) hmem⟩
      unfold check_connection
      rw [if_neg h1, if_pos h2]
      exact wf_ping env.ping
    · by_cases h3 : c.connection_type = "tcp"
      · refine ⟨?_, fun hmem => absurd (by rw [h3]; simp) hmem⟩
        unfold check_connection
        rw [if_neg h1, if_neg h2, if_pos h3]
        exact wf_tcp c env.tcp
      · by_cases h4 : c.connection_type = "database"
        · refine ⟨?_, fun hmem => absurd (by rw [h4]; simp) hmem⟩
          unfold check_connection
          rw [if_neg h1, if_neg h2, if_neg h3, if_pos h4]
          exact wf_tcp (db_conn c) env.tcp
        · unfold check_connection
          rw [if_neg h1, if_neg h2, if_neg h3, if_neg h4]
          exact ⟨Or.inr ⟨Or.inr rfl, by simp⟩, fun _ => ⟨rfl, rfl⟩⟩

/-- Witness for checker_never_raises at an unrecognized connection
type. -/
theorem checker_never_raises_witness :
    resultWellFormed (check_connection
      { name := "n", description := none, connection_type := "ftp", target := "h"
        port := none, timeout := 10, check_interval := 60, is_active := true }
      { http := .timedOut, ping := .timedOut, tcp := .timedOut }).2 ∧
    (check_connection
      { name := "n", description := none, connection_type := "ftp", target := "h"
        port := none, timeout := 10, check_interval := 60, is_active := true }
      { http := .timedOut, ping := .timedOut, tcp := .timedOut }).2.status =
        Status.unknown :=
  ⟨(checker_never_raises _ _).1,
   ((checker_never_raises _ _).2 (by decide)).1⟩

/-- The inferred default database port is never 0. -/
theorem default_db_port_ne_zero (t : String) : default_db_port t ≠ 0 := by
  unfold default_db_port
  split_ifs <;> norm_num

/-- Claim C10: checking a database target with no configured port
writes the inferred default port into the connection record (3306 for
mysql, 5432 for postgres, 6379 for redis, 27017 for mongodb, 3306
otherwise, by substring match on the lowered target), leaves every
other field unchanged, and a subsequent check leaves the record alone
and connects to the stored port. -/
theorem database_port_mutation (c : Conn) (env1 env2 : Env)
    (htype : c.connection_type = "database") (hport : c.port = none) :
    (check_connection c env1).1 = { c with port := some (default_db_port c.target) } ∧
    (hasSub "mysql".data (lowerChars c.target) = true →
      default_db_port c.target = 3306) ∧
    (hasSub "mysql".data (lowerChars c.target) = false →
      hasSub "postgres".data (lowerChars c.target) = true →
      default_db_port c.target = 5432) ∧
    (hasSub "mysql".data (lowerChars c.target) = false →
      hasSub "postgres".data (lowerChars c.target) = false →
      hasSub "redis".data (lowerChars c.target) = true →
      default_db_port c.target = 6379) ∧
    (hasSub "mysql".data (lowerChars c.target) = false →
      hasSub "postgres".data (lowerChars c.target) = false →
      hasSub "redis".data (lowerChars c.target) = false →
      hasSub "mongodb".data (lowerChars c.target) = true →
      default_db_port c.target = 27017) ∧
    (hasSub "mysql".data (lowerChars c.target) = false →
      hasSub "postgres".data (lowerChars c.target) = false →
      hasSub "redis".data (lowerChars c.target) = false →
      hasSub "mongodb".data (lowerChars c.target) = false →
      default_db_port c.target = 3306) ∧
    (check_connection c env1).1.port ≠ none ∧
    (check_connection (check_connection c env1).1 env2).1 = (check_connection c env1).1 ∧
    tcp_connect_port (check_connection c env1).1 = default_db_port c.target := by
  have hh : c.connection_type ≠ "http" := by rw [htype]; decide
  have hp : c.connection_type ≠ "ping" := by rw [htype]; decide
  have ht : c.connection_type ≠ "tcp" := by rw [htype]; decide
  have hfirst : (check_connection c env1).1 =
      { c with port := some (default_db_port c.target) } := by
    unfold check_connection
    rw [if_neg hh, if_neg hp, if_neg ht, if_pos htype]
    show db_conn c = _
    unfold db_conn
    rw [hport]
    rfl
  refine ⟨hfirst, ?_, ?_, ?_, ?_, ?_, ?_, ?_, ?_⟩
  · intro hm; simp [default_db_port, hm]
  · intro hm hpg; simp [default_db_port, hm, hpg]
  · intro hm hpg hr; simp [default_db_port, hm, hpg, hr]
  · intro hm hpg hr hmg; simp [default_db_port, hm, hpg, hr, hmg]
  · intro hm hpg hr hmg; simp [default_db_port, hm, hpg, hr, hmg]
  · rw [hfirst]; simp
  · rw [hfirst]
    have htype2 : ({ c with port := some (default_db_port c.target) } : Conn).connection_type
        = "database" := htype
    have hh2 : ({ c with port := some (default_db_port c.target) } : Conn).connection_type
        ≠ "http" := by rw [htype2]; decide
    have hp2 : ({ c with port := some (default_db_port c.target) } : Conn).connection_type
        ≠ "ping" := by rw [htype2]; decide
    have ht2 : ({ c with port := some (default_db_port c.target) } : Conn).connection_type
        ≠ "tcp" := by rw [htype2]; decide
    unfold check_connection
    rw [if_neg hh2, if_neg hp2, if_neg ht2, if_pos htype2]
    show db_conn _ = _
    unfold db_conn
    have hpt : portTruthy ({ c with port := some (default_db_port c.target) } : Conn).port
        = true := by
      simp [portTruthy, default_db_port_ne_zero c.target]
    rw [hpt]
    simp
  · rw [hfirst]
    simp [tcp_connect_port, default_db_port_ne_zero c.target]

/-- Witness for database_port_mutation on a postgres target. -/
theorem database_port_mutation_witness :
    (check_connection
      { name := "db", description := none, connection_type := "database"
        target := "postgres.local", port := none, timeout := 10
        check_interval := 60, is_active := true }
      { http := .timedOut, ping := .timedOut, tcp := .timedOut }).1.port =
      some 5432 := by
  have h := database_port_mutation
    { name := "db", description := none, connection_type := "database"
      target := "postgres.local", port := none, timeout := 10
      check_interval := 60, is_active := true }
    { http := .timedOut, ping := .timedOut, tcp := .timedOut }
    { http := .timedOut, ping := .timedOut, tcp := .timedOut }
    rfl rfl
  rw [h.1]
  have h2 := h.2.2.1 (by decide) (by decide)
  simp [h2]

/-- The final incident count, tracked through the fold: the finished
list plus one for a still-open incident, which grows exactly at the
start of each maximal non-UP run. -/
theorem finishLen_foldl (es : List Record) :
    ∀ (acc : List Incident) (cur : Option OpenIncident),
      finishLen (es.foldl stepIncidents (acc, cur)) =
        finishLen (acc, cur) + incidentStarts es cur.isSome := by
  induction es with
  | nil => intro acc cur; simp [incidentStarts]
  | cons e rest ih =>
    intro acc cur
    rw [List.foldl_cons]
    cases cur with
    | none =>
      by_cases h : isIncidentStatus e.status = true
      · have hs : stepIncidents (acc, none) e =
            (acc, some { start_time := e.timestamp, error_message := e.error_message
                         status_types := [e.status] }) := by
          simp [stepIncidents, h]
        rw [hs, ih]
        simp [finishLen, incidentStarts, h]
        omega
      · have hs : stepIncidents (acc, none) e = (acc, none) := by
          simp [stepIncidents, h]
        rw [hs, ih]
        simp [finishLen, incidentStarts, h]
    | some oi =>
      by_cases h : isIncidentStatus e.status = true
      · have hs : stepIncidents (acc, some oi) e = (acc, some
            { start_time := oi.start_time
              error_message :=
                if pyStrTruthy e.error_message && !(pyStrTruthy oi.error_message) then
                  e.error_message
                else oi.error_message
              status_types :=
                if e.status ∈ oi.status_types then oi.status_types
                else oi.status_types ++ [e.status] }) := by
          simp [stepIncidents, h]
        rw [hs, ih]
        simp [finishLen, incidentStarts, h]
      · have hs : stepIncidents (acc, some oi) e =
            (acc ++ [closeIncident oi e.timestamp false], none) := by
          simp [stepIncidents, h]
        rw [hs, ih]
        simp [finishLen, incidentStarts, h]

/-- The incident list is exactly one incident per maximal run of
consecutive non-UP records. -/
theorem calcIncidents_length (entries : List Record) (now : ℤ) :
    (calcIncidents entries now).length = incidentStarts entries false := by
  unfold calcIncidents
  have h := finishLen_foldl entries [] none
  rcases hf : entries.foldl stepIncidents ([], none) with ⟨acc, cur⟩
  rw [hf] at h
  cases cur with
  | none => simpa [finishLen] using h
  | some oi =>
    simp only [finishLen, List.length_nil, Option.isSome_none] at h
    simp only [List.length_append, List.length_singleton]
    omega

/-- Claim C1: incident derivation treats DOWN and UNKNOWN as incident
states and UP as the only closing state, so every maximal run of
consecutive non-UP records becomes exactly one incident; the flapping
sequence UP, DOWN, UNKNOWN, DOWN, UP yields one incident spanning the
three middle records with status kinds DOWN and UNKNOWN. -/
theorem incident_merging :
    (∀ (entries : List Record) (now : ℤ),
      (calcIncidents entries now).length = incidentStarts entries false) ∧
    calcIncidents
      [{ connection_id := 1, timestamp := 0, status := .up
         response_time := some 10, error_message := none },
       { connection_id := 1, timestamp := 60, status := .down
         response_time := none, error_message := some "refused" },
       { connection_id := 1, timestamp := 120, status := .unknown
         response_time := none, error_message := none },
       { connection_id := 1, timestamp := 180, status := .down
         response_time := none, error_message := some "later" },
       { connection_id := 1, timestamp := 240, status := .up
         response_time := some 12, error_message := none }] 999 =
      [{ start_time := 60, end_time := 240, duration_minutes := 3
         error_message := some "refused", status_types := [.down, .unknown]
         status_desc := "Mixed (Down, Unknown)", ongoing := false }] := by
  constructor
  · exact calcIncidents_length
  · norm_num [calcIncidents, stepIncidents, closeIncident, statusDesc, statusTitle,
      pyStrTruthy, isIncidentStatus, pyRound, roundHalfEven, List.foldl]
    decide

/-- The open-incident flag after the fold matches the status of the
last record. -/
theorem foldl_snd_isSome (es : List Record) :
    ∀ (acc : List Incident) (cur : Option OpenIncident),
      ((es.foldl stepIncidents (acc, cur)).2).isSome =
        (match es.getLast? with
         | none => cur.isSome
         | some e => isIncidentStatus e.status) := by
  induction es with
  | nil => intro acc cur; simp
  | cons e rest ih =>
    intro acc cur
    rw [List.foldl_cons]
    cases rest with
    | nil =>
      simp only [List.foldl_nil, List.getLast?_singleton]
      cases cur with
      | none => by_cases h : isIncidentStatus e.status = true <;> simp [stepIncidents, h]
      | some oi => by_cases h : isIncidentStatus e.status = true <;> simp [stepIncidents, h]
    | cons e2 rest2 =>
      rw [ih, List.getLast?_cons_cons]
      have hx : ((e2 :: rest2).getLast?).isSome := by
        rw [Option.isSome_iff_ne_none]
        intro hnone
        exact List.cons_ne_nil e2 rest2 (List.getLast?_eq_none_iff.mp hnone)
      rcases Option.isSome_iff_exists.mp hx with ⟨x, hl⟩
      rw [hl]

/-- The derivation leaves an open incident exactly when the sequence
ends in a non-UP record. -/
theorem foldl_ends (es : List Record) :
    ((es.foldl stepIncidents ([], none)).2).isSome = endsInIncident es := by
  rw [foldl_snd_isSome]
  unfold endsInIncident
  cases es.getLast? <;> simp

/-- Claim C9 (amended): re-running the derivation on the same ascending
sequence yields the same incidents up to the volatile fields of an
ongoing incident (its end time and duration, which are computed from
the evaluation time); when the sequence does not end in a non-UP record
the two runs agree exactly. -/
theorem incidents_rerun_stable (es : List Record) (n1 n2 : ℤ) :
    (calcIncidents es n1).map eraseVolatile = (calcIncidents es n2).map eraseVolatile ∧
    (endsInIncident es = false → calcIncidents es n1 = calcIncidents es n2) := by
  have hends := foldl_ends es
  unfold calcIncidents
  rcases hf : es.foldl stepIncidents ([], none) with ⟨acc, cur⟩
  rw [hf] at hends
  cases cur with
  | none => exact ⟨rfl, fun _ => rfl⟩
  | some oi =>
    constructor
    · simp [List.map_append, eraseVolatile, closeIncident]
    · intro h
      rw [h] at hends
      simp at hends

/-- Witness for incidents_rerun_stable: a sequence ending in UP gives
exactly equal reruns. -/
theorem incidents_rerun_stable_witness :
    calcIncidents
      [{ connection_id := 1, timestamp := 0, status := .down
         response_time := none, error_message := some "boom" },
       { connection_id := 1, timestamp := 60, status := .up
         response_time := some 5, error_message := none }] 100 =
    calcIncidents
      [{ connection_id := 1, timestamp := 0, status := .down
         response_time := none, error_message := some "boom" },
       { connection_id := 1, timestamp := 60, status := .up
         response_time := some 5, error_message := none }] 200 :=
  (incidents_rerun_stable _ 100 200).2 (by rfl)

/-- Counterexample to claim C9 as stated: when the sequence ends in a
non-UP record, re-running the derivation at a later evaluation time
changes the ongoing incident (its end time and duration). -/
theorem incidents_rerun_counterexample :
    calcIncidents [{ connection_id := 1, timestamp := 0, status := .down
                     response_time := none, error_message := some "boom" }] 60 ≠
    calcIncidents [{ connection_id := 1, timestamp := 0, status := .down
                     response_time := none, error_message := some "boom" }] 120 := by
  intro h
  have h2 := congrArg (fun l => l.map Incident.end_time) h
  norm_num [calcIncidents, stepIncidents, isIncidentStatus, closeIncident,
    List.foldl] at h2

/-- filterMap on the latency field loses nothing when every record in
the list carries a latency. -/
theorem filterMap_latency_length (l : List Record)
    (h : ∀ r ∈ l, r.response_time.isSome) :
    (l.filterMap (·.response_time)).length = l.length := by
  induction l with
  | nil => rfl
  | cons r t ih =>
    have hr := h r (List.mem_cons_self r t)
    rcases Option.isSome_iff_exists.mp hr with ⟨x, hx⟩
    simp [List.filterMap_cons, hx,
      ih fun a ha => h a (List.mem_cons_of_mem r ha)]

/-- The two-index form of the median: the middle element for an odd
count, the mean of the two central elements for an even count. -/
theorem pyMedian_two_index (l : List ℚ) :
    pyMedian l = ((sortRats l).getD (((sortRats l).length - 1) / 2) 0 +
      (sortRats l).getD ((sortRats l).length / 2) 0) / 2 := by
  unfold pyMedian
  by_cases h : (sortRats l).length % 2 = 1
  · rw [if_pos h]
    have he : ((sortRats l).length - 1) / 2 = (sortRats l).length / 2 := by omega
    rw [he]
    ring
  · rw [if_neg h]
    have he : ((sortRats l).length - 1) / 2 = (sortRats l).length / 2 - 1 := by omega
    rw [he]

/-- Claim C5: the median query returns the statistics-textbook median
of the latencies of the most recent at-most-periods records with
status UP and a non-null latency, and None when no record qualifies;
DOWN, UNKNOWN and latency-free records never contribute. -/
theorem median_query (connection_id periods : ℕ) (store : List Record) :
    get_median_response_time connection_id periods store =
      textbookMedian (recentUpLatencies connection_id periods store) := by
  unfold get_median_response_time textbookMedian recentUpLatencies
  have hall : ∀ r ∈ ((store.filter (medianQualifies connection_id)).reverse).take periods,
      r.response_time.isSome := by
    intro r hr
    have h1 : r ∈ (store.filter (medianQualifies connection_id)).reverse :=
      List.mem_of_mem_take hr
    have h2 : r ∈ store.filter (medianQualifies connection_id) :=
      List.mem_reverse.mp h1
    have h3 := (List.mem_filter.mp h2).2
    unfold medianQualifies at h3
    simp only [Bool.and_eq_true] at h3
    exact h3.1.2
  have hlen := filterMap_latency_length _ hall
  by_cases he : (((store.filter (medianQualifies connection_id)).reverse).take periods).isEmpty
  · rw [if_pos he]
    rw [List.isEmpty_iff] at he
    rw [he]
    rfl
  · rw [if_neg he]
    have he2 : ¬((((store.filter (medianQualifies connection_id)).reverse).take
        periods).filterMap (·.response_time)).isEmpty := by
      intro hc
      apply he
      rw [List.isEmpty_iff] at hc ⊢
      rw [hc] at hlen
      exact List.length_eq_zero.mp hlen.symm
    rw [if_neg he2]
    rw [pyMedian_two_index]

/-- The i-th daily rollup entry is the one built for the i-th day after
the window start. -/
theorem calcDailyStats_getElem (entries : List Record) (incidents : List Incident)
    (now : ℤ) (days i : ℕ) (h : i < days) :
    (calcDailyStats entries days incidents now)[i]? =
      some (dailyStatFor entries incidents (dailyStart now days + i)) := by
  unfold calcDailyStats
  rw [List.getElem?_map, List.getElem?_range h]
  rfl

/-- Claim C6: the daily rollup always has exactly `days` entries, one
per calendar day in ascending order starting at the window start, and
a day with no records still gets an entry with zero total checks. -/
theorem daily_rollup_shape (entries : List Record) (days : ℕ)
    (incidents : List Incident) (now : ℤ) :
    (calcDailyStats entries days incidents now).length = days ∧
    (∀ i, i < days →
      ((calcDailyStats entries days incidents now)[i]?).map DailyStat.date =
        some (dailyStart now days + i)) ∧
    (∀ i, i < days →
      (∀ e ∈ entries, dateOf e.timestamp ≠ dailyStart now days + i) →
      ((calcDailyStats entries days incidents now)[i]?).map DailyStat.total_checks =
        some 0) := by
  refine ⟨by unfold calcDailyStats; rw [List.length_map, List.length_range], ?_, ?_⟩
  · intro i hi
    rw [calcDailyStats_getElem entries incidents now days i hi]
    rfl
  · intro i hi hnone
    rw [calcDailyStats_getElem entries incidents now days i hi]
    simp only [Option.map_some']
    have hz : ∀ p : Record → Bool,
        entries.countP (fun e => decide (dateOf e.timestamp = dailyStart now days + i)
          && p e) = 0 := by
      intro p
      rw [List.countP_eq_zero]
      intro e he
      simp only [Bool.and_eq_true, decide_eq_true_eq, not_and]
      intro hd
      exact absurd hd (hnone e he)
    simp [dailyStatFor, hz]

/-- Witness for daily_rollup_shape: a two-day window with a single
record on the first day zero-fills the second day. -/
theorem daily_rollup_shape_witness :
    (calcDailyStats [{ connection_id := 1, timestamp := 0, status := .up
                       response_time := some 1, error_message := none }]
      2 [] 86400).length = 2 ∧
    ((calcDailyStats [{ connection_id := 1, timestamp := 0, status := .up
                        response_time := some 1, error_message := none }]
      2 [] 86400)[1]?).map DailyStat.total_checks = some 0 :=
  ⟨(daily_rollup_shape _ 2 [] 86400).1,
   (daily_rollup_shape _ 2 [] 86400).2.2 1 (by norm_num) (by decide)⟩

/-- The three per-status day counts add up to the day total: every
status is one of UP, DOWN, UNKNOWN. -/
theorem checks_partition (entries : List Record) (d : ℤ) :
    entries.countP (fun e => decide (dateOf e.timestamp = d) && isUp e.status) +
      entries.countP (fun e => decide (dateOf e.timestamp = d) && isDown e.status) +
      entries.countP (fun e => decide (dateOf e.timestamp = d) && isUnknown e.status) =
    checksOn entries d := by
  unfold checksOn
  rw [← List.countP_eq_length_filter]
  induction entries with
  | nil => rfl
  | cons e t ih =>
    simp only [List.countP_cons]
    have e1 : isUp Status.up = true := rfl
    have e2 : isUp Status.down = false := rfl
    have e3 : isUp Status.unknown = false := rfl
    have e4 : isDown Status.up = false := rfl
    have e5 : isDown Status.down = true := rfl
    have e6 : isDown Status.unknown = false := rfl
    have e7 : isUnknown Status.up = false := rfl
    have e8 : isUnknown Status.down = false := rfl
    have e9 : isUnknown Status.unknown = true := rfl
    cases he : e.status <;> by_cases hd : dateOf e.timestamp = d <;>
      simp [he, hd, e1, e2, e3, e4, e5, e6, e7, e8, e9] <;> omega

/-- The uptime field of a daily entry, written out. -/
theorem dailyStatFor_uptime (entries : List Record) (incidents : List Incident)
    (d : ℤ) :
    (dailyStatFor entries incidents d).uptime_percentage =
      pyRound 1
        (if 0 < entries.countP (fun e => decide (dateOf e.timestamp = d) && isUp e.status) +
              entries.countP (fun e => decide (dateOf e.timestamp = d) && isDown e.status) +
              entries.countP (fun e => decide (dateOf e.timestamp = d) && isUnknown e.status) then
          ((entries.countP (fun e => decide (dateOf e.timestamp = d) && isUp e.status) : ℚ) /
            ((entries.countP (fun e => decide (dateOf e.timestamp = d) && isUp e.status) +
              entries.countP (fun e => decide (dateOf e.timestamp = d) && isDown e.status) +
              entries.countP (fun e => decide (dateOf e.timestamp = d) && isUnknown e.status) : ℕ) : ℚ)) * 100
        else 0) := rfl

/-- Claim C4 (amended): each daily rollup entry reports
100 * upCount / totalCount rounded to ONE decimal place (the source
rounds the daily percentage to 1 decimal, not 2); a day with 10 checks
of which 2 are DOWN reports 80.0. -/
theorem daily_uptime_formula (entries : List Record) (days : ℕ)
    (incidents : List Incident) (now : ℤ) :
    (∀ i, i < days →
      ((calcDailyStats entries days incidents now)[i]?).map DailyStat.uptime_percentage =
        some (pyRound 1 (100 * (upCountOn entries (dailyStart now days + ((i : ℕ) : ℤ)) : ℚ) /
          (checksOn entries (dailyStart now days + ((i : ℕ) : ℤ)) : ℚ)))) ∧
    ((calcDailyStats
      [{ connection_id := 1, timestamp := 0, status := .up, response_time := some 100, error_message := none },
       { connection_id := 1, timestamp := 1, status := .up, response_time := some 100, error_message := none },
       { connection_id := 1, timestamp := 2, status := .up, response_time := some 100, error_message := none },
       { connection_id := 1, timestamp := 3, status := .up, response_time := some 100, error_message := none },
       { connection_id := 1, timestamp := 4, status := .down, response_time := none, error_message := some "a" },
       { connection_id := 1, timestamp := 5, status := .up, response_time := some 100, error_message := none },
       { connection_id := 1, timestamp := 6, status := .up, response_time := some 100, error_message := none },
       { connection_id := 1, timestamp := 7, status := .down, response_time := none, error_message := some "b" },
       { connection_id := 1, timestamp := 8, status := .up, response_time := some 100, error_message := none },
       { connection_id := 1, timestamp := 9, status := .up, response_time := some 100, error_message := none }]
      1 [] 0)[0]?).map DailyStat.uptime_percentage = some 80 := by
  constructor
  · intro i hi
    rw [calcDailyStats_getElem entries incidents now days i hi]
    simp only [Option.map_some']
    rw [dailyStatFor_uptime]
    congr 1
    have hpart := checks_partition entries (dailyStart now days + ((i : ℕ) : ℤ))
    have hup : entries.countP (fun e =>
        decide (dateOf e.timestamp = dailyStart now days + ((i : ℕ) : ℤ)) && isUp e.status) =
        upCountOn entries (dailyStart now days + ((i : ℕ) : ℤ)) := by
      unfold upCountOn
      exact List.countP_eq_length_filter _ _
    rw [hpart, hup]
    by_cases hc : 0 < checksOn entries (dailyStart now days + ((i : ℕ) : ℤ))
    · rw [if_pos hc]; ring_nf
    · rw [if_neg hc]
      have h0 : checksOn entries (dailyStart now days + ((i : ℕ) : ℤ)) = 0 := by omega
      rw [h0]
      norm_num
  · rw [calcDailyStats_getElem _ _ 0 1 0 (by norm_num)]
    simp only [Option.map_some']
    rw [dailyStatFor_uptime]
    have hs : dailyStart 0 1 + ((0 : ℕ) : ℤ) = 0 := rfl
    have hs2 : dailyStart 0 1 = 0 := rfl
    have h0 : dateOf 0 = 0 := rfl
    have h1 : dateOf 1 = 0 := rfl
    have h2 : dateOf 2 = 0 := rfl
    have h3 : dateOf 3 = 0 := rfl
    have h4 : dateOf 4 = 0 := rfl
    have h5 : dateOf 5 = 0 := rfl
    have h6 : dateOf 6 = 0 := rfl
    have h7 : dateOf 7 = 0 := rfl
    have h8 : dateOf 8 = 0 := rfl
    have h9 : dateOf 9 = 0 := rfl
    norm_num [hs, hs2, h0, h1, h2, h3, h4, h5, h6, h7, h8, h9, isUp, isDown, isUnknown,
      List.countP_cons, pyRound, roundHalfEven]

/-- Witness for daily_uptime_formula on an empty window day. -/
theorem daily_uptime_formula_witness :
    ((calcDailyStats [] 1 [] 0)[0]?).map DailyStat.uptime_percentage =
      some (pyRound 1 (100 * (upCountOn [] (dailyStart 0 1 + ((0 : ℕ) : ℤ)) : ℚ) /
        (checksOn [] (dailyStart 0 1 + ((0 : ℕ) : ℤ)) : ℚ))) :=
  (daily_uptime_formula [] 1 [] 0).1 0 (by norm_num)

/-- Counterexample to claim C4 as stated: a day with 3 checks of which
1 is DOWN rounds to 66.7, not to the two-decimal 66.67 the claim
requires. -/
theorem daily_uptime_rounding_counterexample :
    ((calcDailyStats
      [{ connection_id := 1, timestamp := 0, status := .up, response_time := some 100, error_message := none },
       { connection_id := 1, timestamp := 1, status := .up, response_time := some 100, error_message := none },
       { connection_id := 1, timestamp := 2, status := .down, response_time := none, error_message := some "e" }]
      1 [] 0)[0]?).map DailyStat.uptime_percentage ≠
      some (pyRound 2 (100 * (2 : ℚ) / 3)) := by
  rw [calcDailyStats_getElem _ _ 0 1 0 (by norm_num)]
  simp only [Option.map_some']
  rw [dailyStatFor_uptime]
  have hs : dailyStart 0 1 + ((0 : ℕ) : ℤ) = 0 := rfl
  have hs2 : dailyStart 0 1 = 0 := rfl
  have h0 : dateOf 0 = 0 := rfl
  have h1 : dateOf 1 = 0 := rfl
  have h2 : dateOf 2 = 0 := rfl
  norm_num [hs, hs2, h0, h1, h2, isUp, isDown, isUnknown, List.countP_cons,
    pyRound, roundHalfEven]

end Uplite
